import Mathlib

/-!
Shallow embedding of the session core of `victkk/ai_interview_backend`
(`services/interview_session.py`, `services/audio_processor.py`,
`models/schemas.py`, and the session-registry surface invoked from
`main.py`).

Conventions:
* Python `deque(maxlen=n)` is a `FrameBuffer`: a list whose leftmost
  element is the oldest entry and whose rightmost element is the newest.
* Raised exceptions of external collaborator calls are `Except.error`;
  a Python `None` result is `Option.none`.
* The Python truthiness tests on `Optional[str]` fields (`if not
  current_question: return`) are `false` both for `None` and for `""`.
-/

/-- A frame as it sits in `video_buffer`: the `(timestamp, base64_img)`
tuple unpacked at interview_session.py line 77.  Both components arrive
as text over the video websocket (`data.split(":", 1)` in main.py). -/
abbrev Frame := String × String

/-- `collections.deque(maxlen=...)` as used for `self.video_buffer`
(interview_session.py line 27): a bounded sequence whose left end is the
oldest element and whose right end is the newest. -/
structure FrameBuffer (α : Type) where
  maxlen : Nat
  entries : List α
deriving Repr, DecidableEq

/-- Modelled from the spec: the frame ingestion path (the registry's
`feed_frame`, called from `main.py`) is not under src/; per the spec,
`push(timestamp, payload)` appends at the end that `take_latest()` pops
(Python `deque.append`), and a full deque evicts from the opposite end.
A `maxlen = 0` deque discards every append, as in Python. -/
def FrameBuffer.push {α : Type} (b : FrameBuffer α) (x : α) : FrameBuffer α :=
  if b.maxlen = 0 then b
  else if b.maxlen ≤ b.entries.length then ⟨b.maxlen, b.entries.tail ++ [x]⟩
  else ⟨b.maxlen, b.entries ++ [x]⟩

/-- A whole sequence of `push` calls, oldest first. -/
def FrameBuffer.pushAll {α : Type} (b : FrameBuffer α) (xs : List α) : FrameBuffer α :=
  xs.foldl FrameBuffer.push b

/-- The consumer side of the buffer: `if self.video_buffer:` followed by
`self.video_buffer.pop()` (interview_session.py lines 76-77) removes and
returns the rightmost (most recently pushed) entry; `none` is the empty
case, in which the integrator does not touch the buffer. -/
def FrameBuffer.take_latest {α : Type} (b : FrameBuffer α) :
    Option (α × FrameBuffer α) :=
  match b.entries.getLast? with
  | none => none
  | some x => some (x, ⟨b.maxlen, b.entries.dropLast⟩)

/-- `deque.clear()` as called from `InterviewSession.cleanup`. -/
def FrameBuffer.clear {α : Type} (b : FrameBuffer α) : FrameBuffer α :=
  ⟨b.maxlen, []⟩

/-- `TextAnalysis` (schemas.py lines 191-195).  `keywords_coverage` is a
float in the source; the integrator only ever stores the inert constant
`0.8`, rendered here as a rational. -/
structure TextAnalysis where
  transcript : String
  keywords_coverage : Rat
  answer_structure : String
deriving Repr, DecidableEq

/-- `AudioAnalysis` (schemas.py lines 197-201). -/
structure AudioAnalysis where
  avg_speech_rate : String
  sentiment_tone : String
  pauses_and_fillers : String
deriving Repr, DecidableEq

/-- `VideoAnalysis` (schemas.py lines 203-207). -/
structure VideoAnalysis where
  eye_contact_level : String
  micro_expressions : List String
  body_language : String
deriving Repr, DecidableEq

/-- `MultimodalEvaluationRequest` (schemas.py lines 209-215). -/
structure MultimodalEvaluationRequest where
  question : String
  evaluation_indicators : List String
  text_analysis : TextAnalysis
  audio_analysis : AudioAnalysis
  video_analysis : VideoAnalysis
deriving Repr, DecidableEq

/-- `FollowUpRequest` (schemas.py lines 176-181).  Every field, including
`interviewer_persona`, is a required `str`; pydantic rejects `None`. -/
structure FollowUpRequest where
  original_question : String
  candidate_answer : String
  target_competency : String
  interviewer_persona : String
deriving Repr, DecidableEq

/-- `FollowUpResponse` (schemas.py lines 183-185). -/
structure FollowUpResponse where
  follow_up_questions : List String
deriving Repr, DecidableEq

/-- One element of `interview_data["answers"]`: the dict built at
interview_session.py lines 81-85. -/
structure AnswerData where
  text : String
  timestamp : String
  image : String
deriving Repr, DecidableEq

/-- One element of `interview_data["evaluations"]` (interview_session.py
lines 141-146).  `evaluation` holds `evaluation_result.dict()`, opaque to
the session core, kept as a string.  The stored `timestamp` is
`timestamp if 'timestamp' in locals() else None`, and `_evaluate_answer`
has no local named `timestamp`, so it is always `none`. -/
structure EvaluationRecord where
  question : String
  answer : String
  evaluation : String
  timestamp : Option String
deriving Repr, DecidableEq

/-- `self.interview_data` (interview_session.py lines 46-52). -/
structure InterviewData where
  questions : List String
  answers : List AnswerData
  evaluations : List EvaluationRecord
  current_question : Option String
  interviewer_persona : Option String
deriving Repr, DecidableEq

/-- The `AudioProcessor` state visible to the session core: the
`is_running` flag read by `_process_text`'s loop and cleared by `stop()`
(audio_processor.py lines 16, 39, 66). -/
structure AudioProcessor where
  is_running : Bool
deriving Repr, DecidableEq

/-- The per-session integrator `asyncio.Task`; `cancelled` is set by
`task.cancel()` during cleanup. -/
structure IntegratorTask where
  cancelled : Bool
deriving Repr, DecidableEq

/-- `InterviewSession.__init__`'s fields (interview_session.py lines
22-52).  Websocket handles are kept as presence flags; outbound sends are
returned as explicit effects. -/
structure InterviewSession where
  session_id : String
  video_buffer : FrameBuffer Frame
  audio_results_queue : List String
  audio_processor : AudioProcessor
  integrator_task : Option IntegratorTask
  is_active : Bool
  audio_websocket : Bool
  video_websocket : Bool
  interview_data : InterviewData
deriving Repr, DecidableEq

/-- A fresh session as built by `InterviewSession.__init__`: empty
buffer of capacity 500, empty transcript queue, a running audio-processor
thread, no integrator task yet, both endpoints absent. -/
def InterviewSession.init (session_id : String) : InterviewSession :=
  { session_id := session_id
    video_buffer := ⟨500, []⟩
    audio_results_queue := []
    audio_processor := { is_running := true }
    integrator_task := none
    is_active := true
    audio_websocket := false
    video_websocket := false
    interview_data :=
      { questions := []
        answers := []
        evaluations := []
        current_question := none
        interviewer_persona := none } }

/-- `start_integrator` (interview_session.py lines 54-58): creates the
integrator task only if none exists yet. -/
def InterviewSession.start_integrator (s : InterviewSession) : InterviewSession :=
  if s.integrator_task.isNone then
    { s with integrator_task := some { cancelled := false } }
  else s

/-- Python truthiness of an `Optional[str]`: `None` and `""` are falsy. -/
def truthyOptStr : Option String → Bool
  | none => false
  | some s => !s.isEmpty

/-- The Python `in` operator on strings: `sub` occurs contiguously in
`s`. -/
def containsSubstring (s sub : String) : Bool :=
  s.data.tails.any (fun t => sub.data.isPrefixOf t)

/-- The external calls an integrator cycle can make, as oracles.
`Except.error` models a raised exception, `Except.ok none` a falsy
(`None`) return value.  `base64_to_image` (utils/util.py) is called for
its side effect only — its result `img` is unused by the integrator —
but it can raise on malformed input. -/
structure Collaborators where
  evaluate_multimodal_performance :
    MultimodalEvaluationRequest → Except String (Option String)
  generate_follow_up_questions :
    FollowUpRequest → Except String (Option FollowUpResponse)
  base64_to_image : String → Except String Unit

/-- The two transport endpoints a question can be pushed to. -/
inductive Channel
  | video
  | audio
deriving Repr, DecidableEq

/-- `_send_question_to_frontend` (interview_session.py lines 190-203):
prefers the video websocket, falls back to audio, otherwise sends
nothing; a send failure is caught and ignored, so the attempted messages
are the observable effect. -/
def InterviewSession.send_question_to_frontend (s : InterviewSession)
    (question : String) : List (Channel × String) :=
  if s.video_websocket then [(Channel.video, "QUESTION:" ++ question)]
  else if s.audio_websocket then [(Channel.audio, "QUESTION:" ++ question)]
  else []

/-- The `MultimodalEvaluationRequest` built by `_evaluate_answer`
(interview_session.py lines 117-135); every field except `question` and
`transcript` is a hard-coded placeholder.  The popped frame is *not*
part of the request. -/
def evaluation_request_for (current_question answer_text : String) :
    MultimodalEvaluationRequest :=
  { question := current_question
    evaluation_indicators := ["专业知识水平", "语言表达能力", "逻辑思维能力"]
    text_analysis :=
      { transcript := answer_text
        keywords_coverage := 0.8
        answer_structure := "结构化回答" }
    audio_analysis :=
      { avg_speech_rate := "150字/分钟"
        sentiment_tone := "自信"
        pauses_and_fillers := "少量停顿" }
    video_analysis :=
      { eye_contact_level := "良好"
        micro_expressions := ["自信", "思考"]
        body_language := "坐姿端正" } }

/-- The `FollowUpRequest` built by `_generate_follow_up_if_needed`
(interview_session.py lines 166-171), for the case where the stored
persona is a string. -/
def follow_up_request_for (current_question answer_text persona : String) :
    FollowUpRequest :=
  { original_question := current_question
    candidate_answer := answer_text
    target_competency := "逻辑思维能力"
    interviewer_persona := persona }

/-- `_evaluate_answer` (interview_session.py lines 103-150).  Returns
early when `current_question` is falsy; a raised collaborator exception
or a falsy result appends nothing; otherwise one `EvaluationRecord` is
appended.  The `image_base64` argument is received but never used in the
request. -/
def InterviewSession.evaluate_answer (o : Collaborators) (s : InterviewSession)
    (answer_text image_base64 : String) : InterviewSession :=
  match s.interview_data.current_question with
  | none => s
  | some current_question =>
    if current_question.isEmpty then s
    else
      match o.evaluate_multimodal_performance
          (evaluation_request_for current_question answer_text) with
      | Except.error _ => s
      | Except.ok none => s
      | Except.ok (some evaluation_result) =>
        { s with interview_data :=
            { s.interview_data with evaluations :=
                s.interview_data.evaluations ++
                  [{ question := current_question
                     answer := answer_text
                     evaluation := evaluation_result
                     timestamp := none }] } }

/-- `_generate_follow_up_if_needed` (interview_session.py lines 152-188).
The policy fires when the answer has fewer than 50 characters or
contains "简单" or "基本".  `interview_data.get("interviewer_persona",
"专业严谨")` returns the stored value because the key is always present,
so when no persona was ever set the `FollowUpRequest` constructor
receives `None` for a required `str` field and raises; the surrounding
`except` swallows it and no follow-up is produced.  When the collaborator
returns a response with a non-empty question list, the first question
becomes `current_question`, is appended to `questions`, and is pushed to
the frontend. -/
def InterviewSession.generate_follow_up_if_needed (o : Collaborators)
    (s : InterviewSession) (answer_text : String) :
    InterviewSession × List (Channel × String) :=
  match s.interview_data.current_question with
  | none => (s, [])
  | some current_question =>
    if current_question.isEmpty then (s, [])
    else if answer_text.length < 50 || containsSubstring answer_text "简单"
        || containsSubstring answer_text "基本" then
      match s.interview_data.interviewer_persona with
      | none => (s, [])
      | some persona =>
        match o.generate_follow_up_questions
            (follow_up_request_for current_question answer_text persona) with
        | Except.error _ => (s, [])
        | Except.ok none => (s, [])
        | Except.ok (some follow_up_result) =>
          match follow_up_result.follow_up_questions with
          | [] => (s, [])
          | next_question :: _ =>
            let s' := { s with interview_data :=
                { s.interview_data with
                    current_question := some next_question
                    questions := s.interview_data.questions ++ [next_question] } }
            (s', s'.send_question_to_frontend next_question)
    else (s, [])

/-- One iteration of `_integrator_logic`'s while-body (interview_session.py
lines 68-99) for a sentence taken from the transcript queue.  If the
video buffer is empty the whole body is skipped: the utterance is
dropped.  Otherwise the newest frame is popped, `base64_to_image` runs
(a raised decode error is caught by the loop-level `except`, aborting the
rest of the body with the frame already consumed), the answer is
recorded, evaluation runs when `current_question` is truthy, and the
follow-up policy runs under the always-true `len(answers) > 0` check.
Returns the new state and the messages pushed to the frontend. -/
def InterviewSession.integrator_cycle (o : Collaborators) (s : InterviewSession)
    (sentence : String) : InterviewSession × List (Channel × String) :=
  match s.video_buffer.take_latest with
  | none => (s, [])
  | some ((timestamp, base64_img), buffer') =>
    let s := { s with video_buffer := buffer' }
    match o.base64_to_image base64_img with
    | Except.error _ => (s, [])
    | Except.ok _ =>
      let answer_data : AnswerData :=
        { text := sentence, timestamp := timestamp, image := base64_img }
      let s := { s with interview_data :=
          { s.interview_data with
              answers := s.interview_data.answers ++ [answer_data] } }
      let s :=
        if truthyOptStr s.interview_data.current_question then
          s.evaluate_answer o sentence base64_img
        else s
      if s.interview_data.answers.length > 0 then
        s.generate_follow_up_if_needed o sentence
      else (s, [])

/-- `_integrator_logic`'s loop over a list of queued sentences, in queue
order; the loop keeps running while `is_active` holds.  Exceptions inside
a cycle are caught in the source (inner `except` blocks for collaborator
calls, the loop-level `except Exception` for the rest), so each sentence
is consumed by exactly one `integrator_cycle`. -/
def InterviewSession.integrator_run (o : Collaborators) (s : InterviewSession) :
    List String → InterviewSession
  | [] => s
  | sentence :: rest =>
    if s.is_active then
      InterviewSession.integrator_run o (s.integrator_cycle o sentence).1 rest
    else s

/-- `set_current_question` (interview_session.py lines 205-214). -/
def InterviewSession.set_current_question (s : InterviewSession)
    (question : String) : InterviewSession :=
  { s with interview_data :=
      { s.interview_data with
          current_question := some question
          questions := s.interview_data.questions ++ [question] } }

/-- `set_interviewer_persona` (interview_session.py lines 216-224). -/
def InterviewSession.set_interviewer_persona (s : InterviewSession)
    (persona : String) : InterviewSession :=
  { s with interview_data :=
      { s.interview_data with interviewer_persona := some persona } }

/-- `InterviewSession.cleanup` (interview_session.py lines 304-323):
sets `is_active = False`, cancels and awaits the integrator task when one
exists, calls `audio_processor.stop()`, clears the video buffer, and
drains the transcript queue with `get_nowait` until empty. -/
def InterviewSession.cleanup (s : InterviewSession) : InterviewSession :=
  { s with
      is_active := false
      integrator_task := s.integrator_task.map (fun _ => { cancelled := true })
      audio_processor := { s.audio_processor with is_running := false }
      video_buffer := s.video_buffer.clear
      audio_results_queue := [] }

/-- The integrator task consumes the transcript queue only while the
loop condition `self.is_active` holds and the task has not been
cancelled. -/
def InterviewSession.integratorAlive (s : InterviewSession) : Bool :=
  s.is_active &&
    (match s.integrator_task with
     | some t => !t.cancelled
     | none => false)

/-- An event on the transcript handoff queue: `deliver` is the worker
thread's `run_coroutine_threadsafe(self.output_queue.put(...), ...)`
landing on the event loop (audio_processor.py lines 48-51; the source
guards it with `if full_sentence:` but not with `is_running`, so it can
occur for a sentence that was in flight when `stop()` ran); `receive` is
the integrator's `await self.audio_results_queue.get()` followed by one
cycle. -/
inductive PipelineStep
  | deliver (sentence : String)
  | receive
deriving Repr, DecidableEq

/-- Apply one pipeline event.  The second component is the utterance the
integrator received on this event, if any. -/
def pipeline_step (o : Collaborators) (s : InterviewSession) :
    PipelineStep → InterviewSession × Option String
  | PipelineStep.deliver sentence =>
    if !sentence.isEmpty then
      ({ s with audio_results_queue := s.audio_results_queue ++ [sentence] }, none)
    else (s, none)
  | PipelineStep.receive =>
    if s.integratorAlive then
      match s.audio_results_queue with
      | sentence :: rest =>
        (((({ s with audio_results_queue := rest } : InterviewSession)).integrator_cycle
            o sentence).1, some sentence)
      | [] => (s, none)
    else (s, none)

/-- Run a sequence of pipeline events, collecting every utterance the
integrator received. -/
def pipeline_run (o : Collaborators) (s : InterviewSession) :
    List PipelineStep → InterviewSession × List String
  | [] => (s, [])
  | step :: rest =>
    let out := pipeline_step o s step
    let outs := pipeline_run o out.1 rest
    (outs.1, out.2.toList ++ outs.2)

/-- `_process_text` (audio_processor.py lines 37-54) abstracted to its
delivery behaviour: each pair is one pass of the while loop — the value
of `is_running` observed at the loop check, and the sentence the blocking
`recorder.text()` call then returns (`""` when it returns nothing).  A
pass whose check observes `False` ends the thread; a pass whose check
observed `True` delivers its non-empty sentence even if `stop()` flipped
the flag while `text()` was blocked, which is the post-shutdown
delivery of an in-flight utterance. -/
def process_text_deliveries : List (Bool × String) → List String
  | [] => []
  | (is_running, full_sentence) :: rest =>
    if is_running then
      (if !full_sentence.isEmpty then [full_sentence] else []) ++
        process_text_deliveries rest
    else []

/-- Modelled from the spec: the process-wide session registry.  `main.py`
invokes `websocket_manager.create_session`, `feed_frame`, `get_session`
and a registry-level `cleanup_session` on it, but the manager
implementing them is not under src/ (the `WebSocketManager` in
src/services/websocket_manager.py exposes a different surface).  The
registry is an association list from session id to `InterviewSession`. -/
abbrev Registry := List (String × InterviewSession)

/-- Errors of the registry surface, per the spec's taxonomy. -/
inductive RegistryError
  | AlreadyExists
  | NotFound
deriving Repr, DecidableEq

/-- Look a session up by id. -/
def Registry.lookup (reg : Registry) (session_id : String) :
    Option InterviewSession :=
  match reg with
  | [] => none
  | (id, s) :: rest =>
    if id = session_id then some s else Registry.lookup rest session_id

/-- Modelled from the spec: `create(id)` fails with AlreadyExists if the
id is present; otherwise it stores a fresh session (the spec starts the
integrator at session creation). -/
def Registry.create_session (reg : Registry) (session_id : String) :
    Except RegistryError Registry :=
  if (Registry.lookup reg session_id).isSome then
    Except.error RegistryError.AlreadyExists
  else
    Except.ok ((session_id,
      (InterviewSession.init session_id).start_integrator) :: reg)

/-- Modelled from the spec: `cleanup(id)` cancels the integrator, stops
the worker, clears the buffer and drains the queue (the per-session
`InterviewSession.cleanup` from the source), then removes the entry; on
an absent id it is a no-op, producing no error. -/
def Registry.cleanup_session (reg : Registry) (session_id : String) : Registry :=
  (reg.map (fun p =>
      if p.1 = session_id then (p.1, p.2.cleanup) else p)).filter
    (fun p => p.1 != session_id)

/-- An operation on the registry surface, to quantify over every
reachable registry. -/
inductive RegistryOp
  | create (session_id : String)
  | cleanup (session_id : String)
deriving Repr, DecidableEq

/-- Apply one registry operation; a failed create leaves the registry as
the caller keeps it. -/
def apply_registry_op (reg : Registry) : RegistryOp → Registry
  | RegistryOp.create id =>
    match Registry.create_session reg id with
    | Except.ok reg' => reg'
    | Except.error _ => reg
  | RegistryOp.cleanup id => Registry.cleanup_session reg id

/-- The registry reached from an empty process by a sequence of
operations. -/
def run_registry_ops (ops : List RegistryOp) : Registry :=
  ops.foldl apply_registry_op []

/-- Concrete collaborators whose calls all succeed, for concrete runs. -/
def collabOk : Collaborators :=
  { evaluate_multimodal_performance := fun _ => Except.ok (some "EVAL")
    generate_follow_up_questions := fun _ =>
      Except.ok (some { follow_up_questions := ["FOLLOW-UP"] })
    base64_to_image := fun _ => Except.ok () }

/-- Concrete collaborators whose calls all raise, for failure runs. -/
def collabRaise : Collaborators :=
  { evaluate_multimodal_performance := fun _ => Except.error "boom"
    generate_follow_up_questions := fun _ => Except.error "boom"
    base64_to_image := fun _ => Except.ok () }

/-- A session mid-interview: question asked, integrator running, video
endpoint attached, empty video buffer. -/
def sessionEmptyBuffer : InterviewSession :=
  { (InterviewSession.init "s1").start_integrator with
      video_websocket := true
      interview_data :=
        { questions := ["Tell me about X"]
          answers := []
          evaluations := []
          current_question := some "Tell me about X"
          interviewer_persona := some "专业严谨" } }

/-- The same session with one frame buffered. -/
def sessionOneFrame : InterviewSession :=
  { sessionEmptyBuffer with
      video_buffer := ⟨500, [("1.5", "IMGDATA")]⟩ }

theorem FrameBuffer.push_maxlen {α : Type} (b : FrameBuffer α) (x : α) :
    (b.push x).maxlen = b.maxlen := by
  unfold FrameBuffer.push
  split
  · rfl
  · split <;> rfl

theorem FrameBuffer.push_length_le {α : Type} (b : FrameBuffer α) (x : α)
    (h : b.entries.length ≤ b.maxlen) : (b.push x).entries.length ≤ b.maxlen := by
  unfold FrameBuffer.push
  split
  · exact h
  · split
    · simp only [List.length_append, List.length_tail, List.length_cons,
        List.length_nil]
      omega
    · simp only [List.length_append, List.length_cons, List.length_nil]
      omega

theorem FrameBuffer.pushAll_maxlen {α : Type} (xs : List α) :
    ∀ b : FrameBuffer α, (b.pushAll xs).maxlen = b.maxlen := by
  induction xs with
  | nil => intro b; rfl
  | cons x xs ih =>
    intro b
    show ((b.push x).pushAll xs).maxlen = b.maxlen
    rw [ih (b.push x), FrameBuffer.push_maxlen]

theorem FrameBuffer.pushAll_length_le {α : Type} (xs : List α) :
    ∀ b : FrameBuffer α, b.entries.length ≤ b.maxlen →
      (b.pushAll xs).entries.length ≤ b.maxlen := by
  induction xs with
  | nil => intro b h; exact h
  | cons x xs ih =>
    intro b h
    show ((b.push x).pushAll xs).entries.length ≤ b.maxlen
    have h1 : (b.push x).entries.length ≤ (b.push x).maxlen := by
      rw [FrameBuffer.push_maxlen]; exact FrameBuffer.push_length_le b x h
    have := ih (b.push x) h1
    rwa [FrameBuffer.push_maxlen] at this

theorem FrameBuffer.pushAll_entries_of_empty {α : Type} (c : Nat) (xs : List α) :
    (FrameBuffer.pushAll ⟨c, []⟩ xs).entries = xs.drop (xs.length - c) := by
  induction xs using List.reverseRecOn with
  | nil => simp [FrameBuffer.pushAll]
  | append_singleton xs x ih =>
    have hfold : FrameBuffer.pushAll (⟨c, []⟩ : FrameBuffer α) (xs ++ [x])
        = (FrameBuffer.pushAll ⟨c, []⟩ xs).push x := by
      unfold FrameBuffer.pushAll
      rw [List.foldl_append]
      rfl
    have hmax : (FrameBuffer.pushAll (⟨c, []⟩ : FrameBuffer α) xs).maxlen = c :=
      FrameBuffer.pushAll_maxlen xs _
    have hlen : (FrameBuffer.pushAll (⟨c, []⟩ : FrameBuffer α) xs).entries.length ≤ c := by
      have := FrameBuffer.pushAll_length_le xs (⟨c, []⟩ : FrameBuffer α) (by simp)
      simpa using this
    rw [hfold]
    unfold FrameBuffer.push
    rw [hmax, ih]
    by_cases hc : c = 0
    · subst hc
      simp only [if_pos rfl, if_true]
      rw [ih]
      simp
    · simp only [if_neg hc]
      by_cases hfull : c ≤ (xs.drop (xs.length - c)).length
      · have hcle : c ≤ xs.length := by
          simp only [List.length_drop] at hfull
          omega
        have hdroplen : (xs.drop (xs.length - c)).length = c := by
          simp only [List.length_drop]; omega
        simp only [if_pos hfull]
        have h1 : xs.length + 1 - c = (xs.length - c) + 1 := by omega
        have h2 : (xs.length - c) + 1 ≤ xs.length := by omega
        simp only [List.length_append, List.length_cons, List.length_nil, h1]
        rw [List.drop_append_of_le_length h2, List.tail_drop]
      · have hlt : xs.length < c := by
          simp only [List.length_drop] at hfull
          omega
        have h0 : xs.length - c = 0 := by omega
        have h1 : xs.length + 1 - c = 0 := by omega
        simp only [if_neg hfull, h0, List.drop_zero, List.length_append,
          List.length_cons, List.length_nil, h1]
        rw [if_neg (by omega : ¬ c ≤ xs.length)]

/-- C1: for every sequence of pushes into the session's `video_buffer`
(capacity 500), the buffer never holds more than 500 entries, and its
contents are exactly the most recent pushes in arrival order — i.e. when
a push would exceed the capacity, the earliest still-present entry is the
one evicted. -/
theorem frameBuffer_capacity_evicts_oldest (xs : List Frame) :
    ((⟨500, []⟩ : FrameBuffer Frame).pushAll xs).entries
        = xs.drop (xs.length - 500) ∧
      ((⟨500, []⟩ : FrameBuffer Frame).pushAll xs).entries.length ≤ 500 := by
  refine ⟨FrameBuffer.pushAll_entries_of_empty 500 xs, ?_⟩
  have := FrameBuffer.pushAll_length_le xs (⟨500, []⟩ : FrameBuffer Frame) (by simp)
  simpa using this

/-- C2: `take_latest` removes and returns exactly the most recently
pushed entry and removes no other entry; and the concrete scenario —
pushing frames at t=0.0, 1.0, 2.0 into a buffer of capacity 2 leaves the
1.0 and 2.0 entries, `take_latest` returns the 2.0 entry, and only the
1.0 entry remains. -/
theorem take_latest_removes_most_recent (b : FrameBuffer Frame)
    (l : List Frame) (x : Frame) (h : b.entries = l ++ [x]) :
    b.take_latest = some (x, ⟨b.maxlen, l⟩) ∧
      ((⟨2, []⟩ : FrameBuffer Frame).pushAll
          [("0.0", "f0"), ("1.0", "f1"), ("2.0", "f2")]).entries
        = [("1.0", "f1"), ("2.0", "f2")] ∧
      (⟨2, [("1.0", "f1"), ("2.0", "f2")]⟩ : FrameBuffer Frame).take_latest
        = some (("2.0", "f2"), ⟨2, [("1.0", "f1")]⟩) := by
  refine ⟨?_, by rfl, by rfl⟩
  unfold FrameBuffer.take_latest
  rw [h, List.getLast?_concat]
  simp

/-- Witness for C2 at the scenario input: the buffer holding the 1.0 and
2.0 frames with capacity 2. -/
theorem take_latest_removes_most_recent_witness :
    (⟨2, [("1.0", "f1"), ("2.0", "f2")]⟩ : FrameBuffer Frame).take_latest
      = some (("2.0", "f2"), ⟨2, [("1.0", "f1")]⟩) :=
  (take_latest_removes_most_recent
    ⟨2, [("1.0", "f1"), ("2.0", "f2")]⟩ [("1.0", "f1")] ("2.0", "f2") rfl).1

/-- C10: `set_current_question(q)` sets `current_question` to `q` and
appends `q` to `questions` (growing it by exactly one), leaving
`answers`, `evaluations`, and `interviewer_persona` unchanged. -/
theorem set_current_question_appends_question (s : InterviewSession)
    (q : String) :
    (s.set_current_question q).interview_data.current_question = some q ∧
      (s.set_current_question q).interview_data.questions
        = s.interview_data.questions ++ [q] ∧
      (s.set_current_question q).interview_data.questions.length
        = s.interview_data.questions.length + 1 ∧
      (s.set_current_question q).interview_data.answers
        = s.interview_data.answers ∧
      (s.set_current_question q).interview_data.evaluations
        = s.interview_data.evaluations ∧
      (s.set_current_question q).interview_data.interviewer_persona
        = s.interview_data.interviewer_persona := by
  refine ⟨rfl, rfl, ?_, rfl, rfl, rfl⟩
  simp [InterviewSession.set_current_question]

/-- Counterexample to C3: with `current_question` set, an empty frame
buffer, and collaborators that would succeed, an arriving utterance
leaves the session unchanged — `answers` does not grow by one and the
evaluation collaborator is not invoked, contrary to the claim. -/
theorem integrator_cycle_empty_buffer_cex :
    sessionEmptyBuffer.interview_data.current_question
        = some "Tell me about X" ∧
      sessionEmptyBuffer.video_buffer.entries = [] ∧
      (sessionEmptyBuffer.integrator_cycle collabOk "ok").1
        = sessionEmptyBuffer ∧
      (sessionEmptyBuffer.integrator_cycle collabOk "ok").1.interview_data.answers
        = [] ∧
      (sessionEmptyBuffer.integrator_cycle collabOk "ok").2 = [] :=
  ⟨rfl, rfl, rfl, rfl, rfl⟩

/-- C3 (amended): when an utterance is received while the frame buffer
is empty, the integrator does not block, but it also records nothing:
the whole cycle body is skipped, the utterance is dropped, the
evaluation collaborator is not invoked, and the session state is
unchanged. -/
theorem integrator_cycle_empty_buffer_skips (o : Collaborators)
    (s : InterviewSession) (sentence : String)
    (h : s.video_buffer.entries = []) :
    s.integrator_cycle o sentence = (s, []) := by
  have hb : s.video_buffer.take_latest = none := by
    unfold FrameBuffer.take_latest
    rw [h]
    rfl
  unfold InterviewSession.integrator_cycle
  rw [hb]

/-- Witness for the amended C3 at a concrete session with a question set
and no frame available. -/
theorem integrator_cycle_empty_buffer_skips_witness :
    sessionEmptyBuffer.integrator_cycle collabOk "ok"
      = (sessionEmptyBuffer, []) :=
  integrator_cycle_empty_buffer_skips collabOk sessionEmptyBuffer "ok" rfl

theorem integrator_cycle_no_question (o : Collaborators)
    (s : InterviewSession) (sentence : String)
    (h : s.interview_data.current_question = none) :
    (s.integrator_cycle o sentence).1.interview_data.evaluations
        = s.interview_data.evaluations ∧
      (s.integrator_cycle o sentence).1.interview_data.current_question
        = none := by
  unfold InterviewSession.integrator_cycle
  split
  · exact ⟨rfl, h⟩
  · split
    · exact ⟨rfl, h⟩
    · simp [h, truthyOptStr, InterviewSession.generate_follow_up_if_needed]

/-- C4: a session whose `current_question` is `None` never appends to
`evaluations`, however many utterances arrive and whatever frames are
buffered; `current_question` also stays `None` across the run. -/
theorem integrator_no_question_no_evaluations (o : Collaborators)
    (s : InterviewSession) (sentences : List String)
    (h : s.interview_data.current_question = none) :
    (s.integrator_run o sentences).interview_data.evaluations
        = s.interview_data.evaluations ∧
      (s.integrator_run o sentences).interview_data.current_question
        = none := by
  induction sentences generalizing s with
  | nil => exact ⟨rfl, h⟩
  | cons sentence rest ih =>
    by_cases ha : s.is_active
    · simp only [InterviewSession.integrator_run, if_pos ha]
      have hc := integrator_cycle_no_question o s sentence h
      have hr := ih (s.integrator_cycle o sentence).1 hc.2
      exact ⟨by rw [hr.1, hc.1], hr.2⟩
    · simp only [InterviewSession.integrator_run, if_neg ha]
      exact ⟨by trivial, h⟩

/-- Witness for C4: a fresh session (no question) with a buffered frame
receiving two utterances ends with no evaluations. -/
theorem integrator_no_question_no_evaluations_witness :
    ((({ InterviewSession.init "s1" with
          video_buffer := ⟨500, [("1.0", "IMG")]⟩ } :
        InterviewSession).integrator_run collabOk
          ["你好", "ok"]).interview_data.evaluations = []) ∧
      ((({ InterviewSession.init "s1" with
          video_buffer := ⟨500, [("1.0", "IMG")]⟩ } :
        InterviewSession).integrator_run collabOk
          ["你好", "ok"]).interview_data.current_question = none) :=
  integrator_no_question_no_evaluations collabOk _ ["你好", "ok"] rfl

theorem evaluate_answer_shape (o : Collaborators) (s : InterviewSession)
    (answer_text image_base64 : String) :
    ∃ ev, s.evaluate_answer o answer_text image_base64
      = { s with interview_data :=
            { s.interview_data with evaluations := ev } } := by
  unfold InterviewSession.evaluate_answer
  split
  · exact ⟨s.interview_data.evaluations, rfl⟩
  · split
    · exact ⟨s.interview_data.evaluations, rfl⟩
    · split
      · exact ⟨s.interview_data.evaluations, rfl⟩
      · exact ⟨s.interview_data.evaluations, rfl⟩
      · exact ⟨_, rfl⟩

theorem generate_follow_up_fires (o : Collaborators) (s : InterviewSession)
    (answer_text q p next : String) (restq : List String) (r : FollowUpResponse)
    (hq : s.interview_data.current_question = some q)
    (hqne : q.isEmpty = false)
    (hcond : (decide (answer_text.length < 50)
        || containsSubstring answer_text "简单"
        || containsSubstring answer_text "基本") = true)
    (hp : s.interview_data.interviewer_persona = some p)
    (hfu : o.generate_follow_up_questions
        (follow_up_request_for q answer_text p) = Except.ok (some r))
    (hr : r.follow_up_questions = next :: restq) :
    s.generate_follow_up_if_needed o answer_text
      = ({ s with interview_data :=
            { s.interview_data with
                current_question := some next
                questions := s.interview_data.questions ++ [next] } },
         ({ s with interview_data :=
            { s.interview_data with
                current_question := some next
                questions := s.interview_data.questions ++ [next] } } :
            InterviewSession).send_question_to_frontend next) := by
  unfold InterviewSession.generate_follow_up_if_needed
  simp only [hq, hqne, hcond, hp, hfu, hr]
  simp

/-- C8: in an integrator cycle that pairs a frame, when the utterance is
under 50 characters or contains "简单" or "基本", `current_question` is a
(truthy) question, a persona is stored (so the `FollowUpRequest` can be
built), and the LLM collaborator returns at least one follow-up question,
the first returned question becomes `current_question`, is appended to
`questions`, and is pushed to the attached endpoint (video preferred,
else audio). -/
theorem follow_up_policy_sets_current_question
    (o : Collaborators) (s : InterviewSession)
    (sentence timestamp base64_img q p next : String)
    (buffer' : FrameBuffer Frame) (restq : List String) (r : FollowUpResponse)
    (htake : s.video_buffer.take_latest = some ((timestamp, base64_img), buffer'))
    (hdec : o.base64_to_image base64_img = Except.ok ())
    (hq : s.interview_data.current_question = some q)
    (hqne : q.isEmpty = false)
    (hcond : (decide (sentence.length < 50)
        || containsSubstring sentence "简单"
        || containsSubstring sentence "基本") = true)
    (hp : s.interview_data.interviewer_persona = some p)
    (hfu : o.generate_follow_up_questions
        (follow_up_request_for q sentence p) = Except.ok (some r))
    (hr : r.follow_up_questions = next :: restq) :
    (s.integrator_cycle o sentence).1.interview_data.current_question
        = some next ∧
      (s.integrator_cycle o sentence).1.interview_data.questions
        = s.interview_data.questions ++ [next] ∧
      (s.integrator_cycle o sentence).2
        = (if s.video_websocket then [(Channel.video, "QUESTION:" ++ next)]
           else if s.audio_websocket then [(Channel.audio, "QUESTION:" ++ next)]
           else []) := by
  obtain ⟨sid, vb, arq, ap, it, ia, aw, vw, iq⟩ := s
  obtain ⟨qs, ans, evs, cq, persona⟩ := iq
  simp only at hq hp htake
  subst hq
  subst hp
  unfold InterviewSession.integrator_cycle
  simp only [htake, hdec]
  simp only [truthyOptStr, hqne, Bool.not_false, if_true]
  unfold InterviewSession.evaluate_answer
  simp only [hqne, Bool.false_eq_true, if_false]
  cases hres : o.evaluate_multimodal_performance
      (evaluation_request_for q sentence) with
  | error e =>
    simp only [hres]
    unfold InterviewSession.generate_follow_up_if_needed
    simp only [hqne, Bool.false_eq_true, if_false, hcond, if_true, hfu, hr]
    simp [InterviewSession.send_question_to_frontend]
  | ok res =>
    cases res with
    | none =>
      simp only [hres]
      unfold InterviewSession.generate_follow_up_if_needed
      simp only [hqne, Bool.false_eq_true, if_false, hcond, if_true, hfu, hr]
      simp [InterviewSession.send_question_to_frontend]
    | some v =>
      simp only [hres]
      unfold InterviewSession.generate_follow_up_if_needed
      simp only [hqne, Bool.false_eq_true, if_false, hcond, if_true, hfu, hr]
      simp [InterviewSession.send_question_to_frontend]

/-- Witness for C8: a session with one buffered frame, a question and a
persona set, a short answer "ok", and an LLM oracle returning one
follow-up question. -/
theorem follow_up_policy_sets_current_question_witness :
    (sessionOneFrame.integrator_cycle collabOk "ok").1.interview_data.current_question
        = some "FOLLOW-UP" ∧
      (sessionOneFrame.integrator_cycle collabOk "ok").1.interview_data.questions
        = sessionOneFrame.interview_data.questions ++ ["FOLLOW-UP"] ∧
      (sessionOneFrame.integrator_cycle collabOk "ok").2
        = (if sessionOneFrame.video_websocket then
            [(Channel.video, "QUESTION:" ++ "FOLLOW-UP")]
           else if sessionOneFrame.audio_websocket then
            [(Channel.audio, "QUESTION:" ++ "FOLLOW-UP")]
           else []) :=
  follow_up_policy_sets_current_question collabOk sessionOneFrame "ok" "1.5"
    "IMGDATA" "Tell me about X" "专业严谨" "FOLLOW-UP" ⟨500, []⟩ []
    ⟨["FOLLOW-UP"]⟩ rfl rfl rfl rfl rfl rfl rfl rfl

/-- C9: in a cycle where both the evaluation and the LLM collaborator
calls raise, neither failed call appends an entry (`evaluations`,
`questions`, `current_question` unchanged, nothing sent), the answer is
still recorded, and the integrator loop continues with the next queued
utterance — the exception never terminates the task. -/
theorem collaborator_exception_isolated_to_cycle
    (o : Collaborators) (s : InterviewSession)
    (sentence timestamp base64_img q p e e' : String)
    (buffer' : FrameBuffer Frame)
    (htake : s.video_buffer.take_latest = some ((timestamp, base64_img), buffer'))
    (hdec : o.base64_to_image base64_img = Except.ok ())
    (hq : s.interview_data.current_question = some q)
    (hqne : q.isEmpty = false)
    (heval : o.evaluate_multimodal_performance
        (evaluation_request_for q sentence) = Except.error e)
    (hcond : (decide (sentence.length < 50)
        || containsSubstring sentence "简单"
        || containsSubstring sentence "基本") = true)
    (hp : s.interview_data.interviewer_persona = some p)
    (hfu : o.generate_follow_up_questions
        (follow_up_request_for q sentence p) = Except.error e') :
    (s.integrator_cycle o sentence).1.interview_data.evaluations
        = s.interview_data.evaluations ∧
      (s.integrator_cycle o sentence).1.interview_data.questions
        = s.interview_data.questions ∧
      (s.integrator_cycle o sentence).1.interview_data.current_question
        = s.interview_data.current_question ∧
      (s.integrator_cycle o sentence).1.interview_data.answers
        = s.interview_data.answers ++
            [{ text := sentence, timestamp := timestamp,
               image := base64_img }] ∧
      (s.integrator_cycle o sentence).2 = [] ∧
      (∀ rest : List String, s.is_active = true →
        s.integrator_run o (sentence :: rest)
          = ((s.integrator_cycle o sentence).1).integrator_run o rest) := by
  obtain ⟨sid, vb, arq, ap, it, ia, aw, vw, iq⟩ := s
  obtain ⟨qs, ans, evs, cq, persona⟩ := iq
  simp only at hq hp htake
  subst hq
  subst hp
  have hcyc : InterviewSession.integrator_cycle o
      (InterviewSession.mk sid vb arq ap it ia aw vw
        (InterviewData.mk qs ans evs (some q) (some p)))
      sentence
      = (InterviewSession.mk sid buffer' arq ap it ia aw vw
          (InterviewData.mk qs
            (ans ++ [AnswerData.mk sentence timestamp base64_img])
            evs (some q) (some p)), []) := by
    unfold InterviewSession.integrator_cycle
    simp only [htake, hdec]
    simp only [truthyOptStr, hqne, Bool.not_false, if_true]
    unfold InterviewSession.evaluate_answer
    simp only [hqne, Bool.false_eq_true, if_false, heval]
    unfold InterviewSession.generate_follow_up_if_needed
    simp only [hqne, Bool.false_eq_true, if_false, hcond, if_true, hfu]
    simp
  rw [hcyc]
  refine ⟨rfl, rfl, rfl, rfl, rfl, ?_⟩
  intro rest hact
  subst hact
  simp [InterviewSession.integrator_run, hcyc]

/-- Witness for C9: the same concrete session as the C8 witness but with
collaborators that raise on every call. -/
theorem collaborator_exception_isolated_to_cycle_witness :
    (sessionOneFrame.integrator_cycle collabRaise "ok").1.interview_data.evaluations
        = sessionOneFrame.interview_data.evaluations ∧
      (sessionOneFrame.integrator_cycle collabRaise "ok").1.interview_data.questions
        = sessionOneFrame.interview_data.questions ∧
      (sessionOneFrame.integrator_cycle collabRaise "ok").1.interview_data.current_question
        = sessionOneFrame.interview_data.current_question ∧
      (sessionOneFrame.integrator_cycle collabRaise "ok").1.interview_data.answers
        = sessionOneFrame.interview_data.answers ++
            [{ text := "ok", timestamp := "1.5", image := "IMGDATA" }] ∧
      (sessionOneFrame.integrator_cycle collabRaise "ok").2 = [] ∧
      (∀ rest : List String, sessionOneFrame.is_active = true →
        sessionOneFrame.integrator_run collabRaise ("ok" :: rest)
          = ((sessionOneFrame.integrator_cycle collabRaise "ok").1).integrator_run
              collabRaise rest) :=
  collaborator_exception_isolated_to_cycle collabRaise sessionOneFrame "ok"
    "1.5" "IMGDATA" "Tell me about X" "专业严谨" "boom" "boom" ⟨500, []⟩
    rfl rfl rfl rfl rfl rfl rfl rfl

theorem pipeline_run_received_nil (o : Collaborators) (steps : List PipelineStep) :
    ∀ s : InterviewSession, s.is_active = false →
      (pipeline_run o s steps).2 = [] := by
  induction steps with
  | nil => intro s h; rfl
  | cons step rest ih =>
    intro s h
    cases step with
    | deliver sentence =>
      simp only [pipeline_run, pipeline_step]
      split
      · simp only [Option.toList, List.nil_append]
        exact ih _ h
      · simp only [Option.toList, List.nil_append]
        exact ih _ h
    | receive =>
      simp only [pipeline_run, pipeline_step, InterviewSession.integratorAlive, h,
        Bool.false_and, Bool.false_eq_true, if_false]
      simpa using ih _ h

theorem process_text_deliveries_stop (pre : List (Bool × String)) :
    ∀ (suf : List (Bool × String)) (sentence : String),
      process_text_deliveries (pre ++ (false, sentence) :: suf)
        = process_text_deliveries pre := by
  induction pre with
  | nil => intro suf sentence; rfl
  | cons hd pre ih =>
    intro suf sentence
    obtain ⟨b, str⟩ := hd
    simp only [List.cons_append, process_text_deliveries, List.append_eq]
    rw [ih]

/-- C7: the transcript pipeline after `cleanup` (the only caller of
`AudioProcessor.stop`, which cancels the integrator before stopping the
worker and drains the queue afterwards) lets the integrator receive no
utterance whatsoever — any post-shutdown delivery of an in-flight
sentence lands in a queue no live integrator consumes; and once the
worker loop observes `is_running = False` at its check, it exits: no
further fetch or delivery attempt is made, so the in-flight delivery is
attempted at most once and never retried. -/
theorem transcription_stop_no_further_delivery :
    (∀ (o : Collaborators) (s : InterviewSession) (steps : List PipelineStep),
        (pipeline_run o s.cleanup steps).2 = []) ∧
      (∀ (pre suf : List (Bool × String)) (sentence : String),
        process_text_deliveries (pre ++ (false, sentence) :: suf)
          = process_text_deliveries pre) := by
  constructor
  · intro o s steps
    exact pipeline_run_received_nil o steps s.cleanup rfl
  · intro pre suf sentence
    exact process_text_deliveries_stop pre suf sentence

theorem lookup_cleanup_session_self (reg : Registry) (session_id : String) :
    Registry.lookup (Registry.cleanup_session reg session_id) session_id
      = none := by
  induction reg with
  | nil => rfl
  | cons p rest ih =>
    obtain ⟨k, sess⟩ := p
    by_cases hk : k = session_id
    · simpa [Registry.cleanup_session, hk] using ih
    · simpa [Registry.cleanup_session, Registry.lookup, hk] using ih

theorem cleanup_session_idem (reg : Registry) (session_id : String) :
    Registry.cleanup_session (Registry.cleanup_session reg session_id) session_id
      = Registry.cleanup_session reg session_id := by
  induction reg with
  | nil => rfl
  | cons p rest ih =>
    obtain ⟨k, sess⟩ := p
    by_cases hk : k = session_id
    · simpa [Registry.cleanup_session, hk] using ih
    · simpa [Registry.cleanup_session, hk] using ih

/-- C5: `cleanup_session(id)` is idempotent (a second call changes
nothing and produces no error), and after the first call the id is
absent from the registry while the cleaned session has its integrator
task cancelled, its transcription worker stopped, its frame buffer
cleared, and its transcript queue drained; session-level cleanup is
itself idempotent. -/
theorem registry_cleanup_session_idempotent (reg : Registry)
    (session_id : String) (s : InterviewSession)
    (h : Registry.lookup reg session_id = some s) :
    Registry.lookup (Registry.cleanup_session reg session_id) session_id
        = none ∧
      Registry.cleanup_session (Registry.cleanup_session reg session_id)
          session_id
        = Registry.cleanup_session reg session_id ∧
      s.cleanup.is_active = false ∧
      s.cleanup.integrator_task
        = s.integrator_task.map (fun _ => { cancelled := true }) ∧
      s.cleanup.audio_processor.is_running = false ∧
      s.cleanup.video_buffer.entries = [] ∧
      s.cleanup.audio_results_queue = [] ∧
      s.cleanup.cleanup = s.cleanup :=
  ⟨lookup_cleanup_session_self reg session_id,
   cleanup_session_idem reg session_id, rfl, rfl, rfl, rfl, rfl,
   by cases hit : s.integrator_task <;>
     simp [InterviewSession.cleanup, FrameBuffer.clear, hit]⟩

/-- Witness for C5 on a one-entry registry. -/
theorem registry_cleanup_session_idempotent_witness :
    Registry.lookup
        (Registry.cleanup_session
          [("s1", (InterviewSession.init "s1").start_integrator)] "s1") "s1"
        = none ∧
      Registry.cleanup_session
          (Registry.cleanup_session
            [("s1", (InterviewSession.init "s1").start_integrator)] "s1") "s1"
        = Registry.cleanup_session
            [("s1", (InterviewSession.init "s1").start_integrator)] "s1" ∧
      ((InterviewSession.init "s1").start_integrator).cleanup.is_active
        = false ∧
      ((InterviewSession.init "s1").start_integrator).cleanup.integrator_task
        = ((InterviewSession.init "s1").start_integrator).integrator_task.map
            (fun _ => { cancelled := true }) ∧
      ((InterviewSession.init "s1").start_integrator).cleanup.audio_processor.is_running
        = false ∧
      ((InterviewSession.init "s1").start_integrator).cleanup.video_buffer.entries
        = [] ∧
      ((InterviewSession.init "s1").start_integrator).cleanup.audio_results_queue
        = [] ∧
      ((InterviewSession.init "s1").start_integrator).cleanup.cleanup
        = ((InterviewSession.init "s1").start_integrator).cleanup :=
  registry_cleanup_session_idempotent
    [("s1", (InterviewSession.init "s1").start_integrator)] "s1"
    ((InterviewSession.init "s1").start_integrator) rfl

/-- At most one entry per session id: the spec's invariant (a). -/
def Registry.wf (reg : Registry) : Prop :=
  ∀ session_id : String, reg.countP (fun p => p.1 == session_id) ≤ 1

theorem lookup_none_countP_zero (reg : Registry) (session_id : String)
    (h : Registry.lookup reg session_id = none) :
    reg.countP (fun p => p.1 == session_id) = 0 := by
  induction reg with
  | nil => rfl
  | cons p rest ih =>
    obtain ⟨k, sess⟩ := p
    by_cases hk : k = session_id
    · simp [Registry.lookup, hk] at h
    · simp only [Registry.lookup, if_neg hk] at h
      simp [List.countP_cons, hk, ih h]

theorem lookup_isSome_countP_pos (reg : Registry) (session_id : String)
    (h : (Registry.lookup reg session_id).isSome = true) :
    1 ≤ reg.countP (fun p => p.1 == session_id) := by
  induction reg with
  | nil => simp [Registry.lookup] at h
  | cons p rest ih =>
    obtain ⟨k, sess⟩ := p
    by_cases hk : k = session_id
    · simp [List.countP_cons, hk]
    · simp only [Registry.lookup, if_neg hk] at h
      exact le_trans (ih h)
        (by rw [List.countP_cons]; exact Nat.le_add_right _ _)

theorem countP_cleanup_session_le (reg : Registry) (session_id id' : String) :
    (Registry.cleanup_session reg session_id).countP (fun p => p.1 == id')
      ≤ reg.countP (fun p => p.1 == id') := by
  induction reg with
  | nil => exact Nat.le_refl 0
  | cons p rest ih =>
    obtain ⟨k, sess⟩ := p
    by_cases hk : k = session_id
    · have h1 : Registry.cleanup_session ((k, sess) :: rest) session_id
          = Registry.cleanup_session rest session_id := by
        simp [Registry.cleanup_session, hk]
      rw [h1]
      calc (Registry.cleanup_session rest session_id).countP
              (fun p => p.1 == id')
          ≤ rest.countP (fun p => p.1 == id') := ih
        _ ≤ ((k, sess) :: rest).countP (fun p => p.1 == id') := by
            rw [List.countP_cons]
            exact Nat.le_add_right _ _
    · have h1 : Registry.cleanup_session ((k, sess) :: rest) session_id
          = (k, sess) :: Registry.cleanup_session rest session_id := by
        simp [Registry.cleanup_session, hk]
      rw [h1]
      simp only [List.countP_cons]
      omega

theorem wf_apply_registry_op (reg : Registry) (op : RegistryOp)
    (h : Registry.wf reg) : Registry.wf (apply_registry_op reg op) := by
  cases op with
  | create id =>
    unfold apply_registry_op Registry.create_session
    by_cases hl : (Registry.lookup reg id).isSome = true
    · simp [hl]
      exact h
    · simp only [hl]
      simp only [Bool.false_eq_true, if_false]
      intro id'
      have hz : Registry.lookup reg id = none := by
        cases hlk : Registry.lookup reg id with
        | none => rfl
        | some v => rw [hlk] at hl; simp at hl
      by_cases hid : id = id'
      · subst hid
        have := lookup_none_countP_zero reg id hz
        simp [List.countP_cons, this]
      · have := h id'
        simp [List.countP_cons, hid]
        omega
  | cleanup id =>
    intro id'
    calc (Registry.cleanup_session reg id).countP (fun p => p.1 == id')
        ≤ reg.countP (fun p => p.1 == id') := countP_cleanup_session_le reg id id'
      _ ≤ 1 := h id'

theorem wf_run_registry_ops (ops : List RegistryOp) :
    Registry.wf (run_registry_ops ops) := by
  have hgen : ∀ (l : List RegistryOp) (reg : Registry), Registry.wf reg →
      Registry.wf (l.foldl apply_registry_op reg) := by
    intro l
    induction l with
    | nil => intro reg h; exact h
    | cons op rest ih =>
      intro reg h
      exact ih (apply_registry_op reg op) (wf_apply_registry_op reg op h)
  exact hgen ops [] (fun id => by simp)

/-- C6: in every registry reachable from an empty process by create and
cleanup operations, a create for an id that is already present fails
with AlreadyExists and the registry (left unchanged by the failed call)
holds exactly one session for that id. -/
theorem registry_create_session_already_exists (ops : List RegistryOp)
    (session_id : String)
    (h : (Registry.lookup (run_registry_ops ops) session_id).isSome = true) :
    Registry.create_session (run_registry_ops ops) session_id
        = Except.error RegistryError.AlreadyExists ∧
      (run_registry_ops ops).countP (fun p => p.1 == session_id) = 1 := by
  constructor
  · simp [Registry.create_session, h]
  · have h1 := lookup_isSome_countP_pos (run_registry_ops ops) session_id h
    have h2 := wf_run_registry_ops ops session_id
    omega

/-- Witness for C6: create "s1", then a second create of "s1" fails and
the registry holds exactly one entry for "s1". -/
theorem registry_create_session_already_exists_witness :
    Registry.create_session (run_registry_ops [RegistryOp.create "s1"]) "s1"
        = Except.error RegistryError.AlreadyExists ∧
      (run_registry_ops [RegistryOp.create "s1"]).countP
          (fun p => p.1 == "s1") = 1 :=
  registry_create_session_already_exists [RegistryOp.create "s1"] "s1" rfl
